import Mathlib

/-!
Verification of the LifeMarket domain-model layer against its specification.

The definitions below are a shallow embedding of the Python source:
  - `src/lifemarket/domain/models.py` (RateValue / RateSchedule / RateProvider,
    GlobalInputs and its `validate_and_calculate_timeline` model validator),
  - `src/lifemarket/domain/user_profile.py` (HousingMetrics,
    HealthInsuranceMetrics, CarMetrics and their validators),
  - `src/lifemarket/domain/models/housing.py` (RentInputs).

Numeric fields typed `float` in the source are embedded as exact rationals
(`ℚ`); calendar dates are a year/month/day record over `ℤ` ordered
lexicographically, matching Python `datetime.date` comparison; the
`dateutil.relativedelta` arithmetic used by the timeline validator is embedded
explicitly below.  Fallible pydantic construction is embedded as functions
into `Except String`.
-/

/- Batteries marks the `Rat` arithmetic operations `@[irreducible]`, which
blocks `decide` on concrete rational computations; re-allow unfolding them
locally so concrete evaluations of the embedded validators go through the
kernel. -/
set_option allowUnsafeReducibility true
attribute [local semireducible] Rat.add Rat.sub Rat.mul Rat.inv

deriving instance DecidableEq for Except

namespace LifeMarket

/-! ## Calendar dates and `dateutil.relativedelta` arithmetic -/

/-- A calendar date (year, month, day), embedding Python `datetime.date`.
Validity (month in 1..12, day in range for the month) is tracked by the
separate predicate `Date.Valid`. -/
structure Date where
  year : Int
  month : Int
  day : Int
deriving DecidableEq, Repr

/-- Python `date` comparison `d1 < d2`: lexicographic on (year, month, day). -/
def dateLt (a b : Date) : Bool :=
  decide (a.year < b.year) ||
    (decide (a.year = b.year) &&
      (decide (a.month < b.month) ||
        (decide (a.month = b.month) && decide (a.day < b.day))))

/-- Gregorian leap-year test (as in Python `calendar.isleap`). -/
def isLeapYear (y : Int) : Bool :=
  y % 4 == 0 && (y % 100 != 0 || y % 400 == 0)

/-- Number of days in a month (as in Python `calendar.monthrange(y, m)[1]`). -/
def daysInMonth (y m : Int) : Int :=
  if m = 2 then (if isLeapYear y then 29 else 28)
  else if m = 4 ∨ m = 6 ∨ m = 9 ∨ m = 11 then 30
  else 31

/-- Zero-based month index of a date: `year * 12 + (month - 1)`. -/
def monthIndex (d : Date) : Int :=
  d.year * 12 + (d.month - 1)

/-- A calendar date is valid when its month is in 1..12 and its day is in
range for that month. -/
def Date.Valid (d : Date) : Prop :=
  1 ≤ d.month ∧ d.month ≤ 12 ∧ 1 ≤ d.day ∧ d.day ≤ daysInMonth d.year d.month

instance (d : Date) : Decidable d.Valid := by
  unfold Date.Valid; infer_instance

/-- Add `n` calendar months to a date, clamping the day-of-month to the
length of the target month.  This embeds `dateutil` `relativedelta`
addition (`__radd__`): the target year/month are obtained by shifting the
0-based month index, and the day is `min(dt.day, monthrange(...)[1])`. -/
def addMonths (d : Date) (n : Int) : Date :=
  let t := monthIndex d + n
  let y := Int.fdiv t 12
  let m := Int.fmod t 12 + 1
  { year := y, month := m, day := min d.day (daysInMonth y m) }

/-- Adding `relativedelta(years = y, months = m)` to a date (the source only
builds such deltas with `m` in 0..11, where this equals a single shift of
`12 * y + m` months followed by one day clamp). -/
def relAdd (d : Date) (years months : Int) : Date :=
  addMonths d (12 * years + months)

/-- The whole-month component of `relativedelta(d1, d2)`: the signed count of
calendar months from `d2` to `d1`.  `dateutil` starts from the difference of
month indices and then adjusts by one step until
`d2 + months ≤ d1 < d2 + months + 1` (for `d1 ≥ d2`; symmetrically below
`d2`); a single adjustment step always suffices. -/
def monthsBetween (d1 d2 : Date) : Int :=
  let init := monthIndex d1 - monthIndex d2
  if dateLt d1 d2 then
    (if dateLt (addMonths d2 init) d1 then init + 1 else init)
  else
    (if dateLt d1 (addMonths d2 init) then init - 1 else init)

/-- Python `int(q)` on a float: truncation toward zero (`Rat.floor` is the
computable floor; truncation negates the floor of the negation on negative
arguments). -/
def ratTrunc (q : ℚ) : Int :=
  if 0 ≤ q then q.floor else -((-q).floor)

/-- Python `q % 1` on a float: the fractional part `q - floor q`, always in
`[0, 1)`. -/
def fracPart (q : ℚ) : ℚ :=
  q - q.floor

/-! ## GlobalInputs (src/lifemarket/domain/models.py) -/

/-- Embeds `timeline_mode: Literal["date", "age"]`. -/
inductive TimelineMode where
  | date
  | age
deriving DecidableEq, Repr

/-- Embeds `end_option: Literal["retirement", "lifespan"] | None`. -/
inductive EndOption where
  | retirement
  | lifespan
deriving DecidableEq, Repr

/-- Embeds `class FilingStatus(str, Enum)`. -/
inductive FilingStatus where
  | single
  | married
deriving DecidableEq, Repr

/-- Embeds `class ReportingDeflator(str, Enum)`. -/
inductive ReportingDeflator where
  | none
  | fixed_rate
  | provider
deriving DecidableEq, Repr

/-- The fields of `GlobalInputs`, with the declared pydantic defaults as
structure-field defaults.  `float` fields are embedded as `ℚ`
(`0.025 = 1/40`). -/
structure GlobalInputs where
  schema_version : String := "0.1.0"
  birth_date : Option Date := none
  current_age : Option ℚ := none
  timeline_mode : TimelineMode := .date
  start_age_years : Option Int := none
  start_age_months : Option Int := none
  end_age_years : Option Int := none
  end_age_months : Option Int := none
  end_option : Option EndOption := some .retirement
  start_date : Option Date := none
  end_date : Option Date := none
  filing_status : FilingStatus := .single
  state : String := "NY"
  annual_discount_rate : ℚ := 1/40
  reporting_deflator : ReportingDeflator := .none
  annual_deflator_rate : ℚ := 1/40
  provider_source_deflator : Option String := none
deriving DecidableEq, Repr

/-- The per-field pydantic constraints of `GlobalInputs` (`ge`/`le` bounds on
the `Field(...)` declarations); these run before the model validator. -/
def globalFieldChecks (g : GlobalInputs) : Bool :=
  (match g.start_age_years with
   | Option.none => true
   | some y => decide (0 ≤ y ∧ y ≤ 120)) &&
  (match g.start_age_months with
   | Option.none => true
   | some m => decide (0 ≤ m ∧ m ≤ 11)) &&
  (match g.end_age_years with
   | Option.none => true
   | some y => decide (0 ≤ y ∧ y ≤ 120)) &&
  (match g.end_age_months with
   | Option.none => true
   | some m => decide (0 ≤ m ∧ m ≤ 11)) &&
  decide (0 ≤ g.annual_discount_rate ∧ g.annual_discount_rate ≤ 3/4) &&
  decide (-(3/10) ≤ g.annual_deflator_rate ∧ g.annual_deflator_rate ≤ 3/10)

/-- Embeds `relativedelta(today, birth)` reduced to the age in years used by
the validator: `age_change.years + age_change.months / 12.0` (Python
`divmod` on the month count, i.e. floor division and floor remainder). -/
def derivedCurrentAge (today birth : Date) : ℚ :=
  let m := monthsBetween today birth
  (Int.fdiv m 12 : ℚ) + (Int.fmod m 12 : ℚ) / 12

/-- Step 1 of `validate_and_calculate_timeline`: if `birth_date` is set and
`current_age` is `None`, derive `current_age` from `birth_date` and today;
otherwise keep the given `current_age`. -/
def resolvedCurrentAge (today : Date) (g : GlobalInputs) : Option ℚ :=
  match g.birth_date, g.current_age with
  | some b, Option.none => some (derivedCurrentAge today b)
  | _, _ => g.current_age

/-- The `actual_start_age` chain of the validator: years + months/12 when
both are present, else years alone, else the current age. -/
def actualStartAge (sy sm : Option Int) (ca : ℚ) : ℚ :=
  match sy, sm with
  | some y, some m => (y : ℚ) + (m : ℚ) / 12
  | some y, Option.none => (y : ℚ)
  | Option.none, _ => ca

/-- The `actual_end_age` chain of the validator: years + months/12 when both
are present, else years alone, else 67.0 when `end_option == "retirement"`,
else 80.0. -/
def actualEndAge (ey em : Option Int) (eo : Option EndOption) : ℚ :=
  match ey, em with
  | some y, some m => (y : ℚ) + (m : ℚ) / 12
  | some y, Option.none => (y : ℚ)
  | Option.none, _ => if eo = some EndOption.retirement then 67 else 80

/-- Embeds `today + relativedelta(years=int(delta), months=int((delta % 1)
* 12))`: the source's conversion of a fractional-year age delta into a
calendar date. -/
def ageOffsetDate (today : Date) (delta : ℚ) : Date :=
  relAdd today (ratTrunc delta) (ratTrunc (fracPart delta * 12))

/-- The age-mode branch of `validate_and_calculate_timeline`, entered with
the resolved current age `ca`: orders the actual ages, requires the start
age not to precede the current age, computes both dates, and applies the
final `start_date < end_date` check. -/
def ageBranch (today : Date) (g : GlobalInputs) (ca : ℚ) : Except String GlobalInputs :=
  if actualEndAge g.end_age_years g.end_age_months g.end_option ≤
      actualStartAge g.start_age_years g.start_age_months ca then
    .error "Starting age must be less than the ending age"
  else if actualStartAge g.start_age_years g.start_age_months ca < ca then
    .error "The starting age cannot be less than your current age."
  else if dateLt
      (ageOffsetDate today (actualStartAge g.start_age_years g.start_age_months ca - ca))
      (ageOffsetDate today (actualEndAge g.end_age_years g.end_age_months g.end_option - ca)) then
    .ok { g with
      start_date :=
        some (ageOffsetDate today (actualStartAge g.start_age_years g.start_age_months ca - ca)),
      end_date :=
        some (ageOffsetDate today
          (actualEndAge g.end_age_years g.end_age_months g.end_option - ca)) }
  else .error "The end_date must be later than the start_date"

/-- Embeds `validate_and_calculate_timeline` after `current_age` resolution:
the age branch requires both a birth date and a resolved current age; the
date branch requires both dates, then the final ordering check runs. -/
def validateTimelineCore (today : Date) (g : GlobalInputs) : Except String GlobalInputs :=
  if g.timeline_mode = TimelineMode.age then
    match g.birth_date, g.current_age with
    | some _, some ca => ageBranch today g ca
    | _, _ => .error "The age-based timeline requires current age or birthdate."
  else
    match g.start_date, g.end_date with
    | some sd, some ed =>
      if dateLt sd ed then .ok g
      else .error "The end_date must be later than the start_date"
    | _, _ => .error "Date-based timeline requires both a start_date and end_date"

/-- The full `validate_and_calculate_timeline` model validator, with the
evaluation date `today` passed explicitly. -/
def validateAndCalculateTimeline (today : Date) (g : GlobalInputs) : Except String GlobalInputs :=
  validateTimelineCore today { g with current_age := resolvedCurrentAge today g }

/-- Construction of a `GlobalInputs`: pydantic first enforces the per-field
bounds, then runs the `mode="after"` model validator. -/
def construct (today : Date) (g : GlobalInputs) : Except String GlobalInputs :=
  if globalFieldChecks g then validateAndCalculateTimeline today g
  else .error "field validation failed"

/-! ## Spec-side formulations (for the refinement claims) -/

/-- The specification's wording of the `actual_start_age` fallback chain,
stated independently of the source embedding: years+months combo if both
given, else years-only if given, else fallback to the current age. -/
def specActualStartAge (sy sm : Option Int) (ca : ℚ) : ℚ :=
  if sy.isSome ∧ sm.isSome then (sy.getD 0 : ℚ) + (sm.getD 0 : ℚ) / 12
  else if sy.isSome then (sy.getD 0 : ℚ)
  else ca

/-- The specification's wording of the `actual_end_age` fallback chain:
years+months combo if both given, else years-only if given, else 67.0 if
the end option is retirement, else 80.0. -/
def specActualEndAge (ey em : Option Int) (eo : Option EndOption) : ℚ :=
  if ey.isSome ∧ em.isSome then (ey.getD 0 : ℚ) + (em.getD 0 : ℚ) / 12
  else if ey.isSome then (ey.getD 0 : ℚ)
  else if eo = some EndOption.retirement then 67 else 80

/-- The `GlobalInputs` of C5: date mode with the two dates supplied and
every other field left at its declared default. -/
def dateModeInputs (d1 d2 : Date) : GlobalInputs :=
  { timeline_mode := .date, start_date := some d1, end_date := some d2 }

/-! ## RateSpec: the 3-part rate system (src/lifemarket/domain/models.py) -/

/-- A primitive JSON-like value, used for the free-form `Dict[str, Any]`
provider parameters. -/
inductive JPrim where
  | str (s : String)
  | num (q : ℚ)
  | boolean (b : Bool)
deriving DecidableEq, Repr

/-- A serialized field value of a rate-spec object. -/
inductive JVal where
  | str (s : String)
  | num (q : ℚ)
  | intMap (m : List (Int × ℚ))
  | objMap (m : List (String × JPrim))
deriving DecidableEq, Repr

/-- A serialized object: an association list of field names to values. -/
abbrev JObj := List (String × JVal)

/-- First-match lookup of a field in a serialized object. -/
def jget (k : String) : JObj → Option JVal
  | [] => none
  | (k2, v) :: rest => if k2 = k then some v else jget k rest

/-- Embeds `class RateValue(BaseModel)`: the `kind="value"` shape; `annual`
defaults to 0.03. -/
structure RateValue where
  annual : ℚ := 3/100
deriving DecidableEq, Repr

/-- Embeds `class RateSchedule(BaseModel)`: the `kind="schedule"` shape. -/
structure RateSchedule where
  by_year : List (Int × ℚ)
deriving DecidableEq, Repr

/-- Embeds `class RateProvider(BaseModel)`: the `kind="provider"` shape;
`source` is a required plain `str` with no further constraint, `param`
defaults to the empty mapping. -/
structure RateProvider where
  source : String
  param : List (String × JPrim) := []
deriving DecidableEq, Repr

/-- The `RateSpec` discriminated union. -/
inductive RateSpec where
  | value (v : RateValue)
  | schedule (s : RateSchedule)
  | provider (p : RateProvider)
deriving DecidableEq, Repr

/-- Direct construction of a `RateValue`: the only validation is the field
bound `annual` in `[-1.0, 2.0]`. -/
def mkRateValue (a : ℚ) : Except String RateValue :=
  if -1 ≤ a ∧ a ≤ 2 then .ok { annual := a }
  else .error "annual must be between -1.0 and 2.0"

/-- Direct construction of a `RateProvider`: `source` is only typed `str`
(no emptiness or format check in the source), so any string is accepted. -/
def mkRateProvider (source : String) (param : List (String × JPrim)) :
    Except String RateProvider :=
  .ok { source := source, param := param }

/-- Pydantic `model_dump` of a rate spec: the discriminator tag plus the
shape-specific fields. -/
def dumpRateSpec : RateSpec → JObj
  | .value v => [("kind", .str "value"), ("annual", .num v.annual)]
  | .schedule s => [("kind", .str "schedule"), ("by_year", .intMap s.by_year)]
  | .provider p =>
    [("kind", .str "provider"), ("source", .str p.source), ("param", .objMap p.param)]

/-- Deserialization of the discriminated union: the tag field selects
exactly one shape, whose own field constraints are then enforced; unknown
or missing tags are rejected. -/
def parseRateSpec (o : JObj) : Except String RateSpec :=
  match jget "kind" o with
  | some (.str "value") =>
    (match jget "annual" o with
     | some (.num a) =>
       if -1 ≤ a ∧ a ≤ 2 then .ok (.value { annual := a })
       else .error "annual must be between -1.0 and 2.0"
     | none => .ok (.value {})
     | _ => .error "annual must be a number")
  | some (.str "schedule") =>
    (match jget "by_year" o with
     | some (.intMap m) => .ok (.schedule { by_year := m })
     | _ => .error "by_year is required")
  | some (.str "provider") =>
    (match jget "source" o with
     | some (.str s) =>
       (match jget "param" o with
        | some (.objMap pm) => .ok (.provider { source := s, param := pm })
        | none => .ok (.provider { source := s })
        | _ => .error "param must be a mapping")
     | _ => .error "source is required")
  | _ => .error "unable to extract discriminator tag"

/-! ## Profile metric groups (src/lifemarket/domain/user_profile.py) -/

/-- Embeds `class HousingKind(str, Enum)`. -/
inductive HousingKind where
  | none
  | rent
  | mortgage
deriving DecidableEq, Repr

/-- Embeds `class HealthPayer(str, Enum)`. -/
inductive HealthPayer where
  | none
  | self_pay
  | parents
deriving DecidableEq, Repr

/-- Embeds `class CarStatus(str, Enum)`. -/
inductive CarStatus where
  | none
  | paid_off
  | parents_paying
  | monthly_payment
deriving DecidableEq, Repr

/-- Embeds `class HousingMetrics(BaseModel)` with its declared defaults
(`housing_kind` defaults to rent, both companions default to absent). -/
structure HousingMetrics where
  housing_kind : HousingKind := .rent
  housing_payment_monthly : Option ℚ := none
  has_renters_insurance : Option Bool := none
deriving DecidableEq, Repr

/-- Embeds `class HealthInsuranceMetrics(BaseModel)` (payer defaults to
parents). -/
structure HealthInsuranceMetrics where
  payer : HealthPayer := .parents
  health_premium_monthly : Option ℚ := none
deriving DecidableEq, Repr

/-- Embeds `class CarMetrics(BaseModel)` (status defaults to
parents_paying). -/
structure CarMetrics where
  status : CarStatus := .parents_paying
  monthly_car_payment : Option ℚ := none
  avg_price_per_gallon : Option ℚ := none
  miles_per_month : Option ℚ := none
  miles_per_gallon : Option ℚ := none
deriving DecidableEq, Repr

/-- The `ge = 0.0` field bound on `housing_payment_monthly`. -/
def housingFieldChecks (m : HousingMetrics) : Bool :=
  match m.housing_payment_monthly with
  | none => true
  | some p => decide (0 ≤ p)

/-- The `ge = 0.0` field bound on `health_premium_monthly`. -/
def healthFieldChecks (m : HealthInsuranceMetrics) : Bool :=
  match m.health_premium_monthly with
  | none => true
  | some p => decide (0 ≤ p)

/-- The field bounds of `CarMetrics`: payments, price and mileage are
nonnegative when present; miles-per-gallon is at least 1 when present. -/
def carFieldChecks (m : CarMetrics) : Bool :=
  (match m.monthly_car_payment with
   | none => true
   | some p => decide (0 ≤ p)) &&
  (match m.avg_price_per_gallon with
   | none => true
   | some p => decide (0 ≤ p)) &&
  (match m.miles_per_month with
   | none => true
   | some p => decide (0 ≤ p)) &&
  (match m.miles_per_gallon with
   | none => true
   | some p => decide (1 ≤ p))

/-- Embeds `HousingMetrics.check_housing_payment`: when renting or paying a
mortgage, the monthly payment must be present and strictly positive. -/
def check_housing_payment (m : HousingMetrics) : Except String HousingMetrics :=
  if m.housing_kind = HousingKind.rent ∨ m.housing_kind = HousingKind.mortgage then
    match m.housing_payment_monthly with
    | none => .error "Please enter a monthly rent/mortgage value greater than 0."
    | some p =>
      if p ≤ 0 then .error "Please enter a monthly rent/mortgage value greater than 0."
      else .ok m
  else .ok m

/-- Embeds `HealthInsuranceMetrics.check_health_payment`: when self-paying,
the monthly premium must be present and strictly positive. -/
def check_health_payment (m : HealthInsuranceMetrics) : Except String HealthInsuranceMetrics :=
  if m.payer = HealthPayer.self_pay then
    match m.health_premium_monthly with
    | none => .error "Please enter a positive value for the monthly premium."
    | some p =>
      if p ≤ 0 then .error "Please enter a positive value for the monthly premium."
      else .ok m
  else .ok m

/-- Embeds `CarMetrics.check_car_payment`: with a monthly-payment status,
the monthly car payment must be present and strictly positive. -/
def check_car_payment (m : CarMetrics) : Except String CarMetrics :=
  if m.status = CarStatus.monthly_payment then
    match m.monthly_car_payment with
    | none => .error "Please enter a positive value for the monthly car payment"
    | some p =>
      if p ≤ 0 then .error "Please enter a positive value for the monthly car payment"
      else .ok m
  else .ok m

/-- Pydantic construction of `HousingMetrics`: field bounds first, then the
model validator. -/
def mkHousingMetrics (m : HousingMetrics) : Except String HousingMetrics :=
  if housingFieldChecks m then check_housing_payment m
  else .error "field validation failed"

/-- Pydantic construction of `HealthInsuranceMetrics`. -/
def mkHealthInsuranceMetrics (m : HealthInsuranceMetrics) :
    Except String HealthInsuranceMetrics :=
  if healthFieldChecks m then check_health_payment m
  else .error "field validation failed"

/-- Pydantic construction of `CarMetrics`. -/
def mkCarMetrics (m : CarMetrics) : Except String CarMetrics :=
  if carFieldChecks m then check_car_payment m
  else .error "field validation failed"

/-! ## RentInputs (src/lifemarket/domain/models/housing.py) -/

/-- Embeds `class RentInputs(BaseModel)` with its declared defaults: the
three growth fields default to fixed-value rates of 5%, 3% and 2.5%. -/
structure RentInputs where
  base_monthly_rent : ℚ
  roommates : Int := 0
  roommate_contribution_percent : ℚ := 0
  renters_insurance_monthly : ℚ := 0
  utilities_monthly : ℚ := 0
  rent_growth : RateSpec := .value { annual := 1/20 }
  insurance_growth : RateSpec := .value { annual := 3/100 }
  utilities_growth : RateSpec := .value { annual := 1/40 }
deriving DecidableEq, Repr

/-- Pydantic construction of `RentInputs`: optional arguments model omitted
fields (which take the declared defaults), and the field bounds are
`base_monthly_rent > 0` (PositiveFloat), `roommates` in `[0, 10]`,
`roommate_contribution_percent` in `[0, 1]`, and nonnegative insurance and
utilities. -/
def mkRentInputs (base : ℚ) (roommates : Option Int) (contrib ins util : Option ℚ)
    (rg ig ug : Option RateSpec) : Except String RentInputs :=
  if 0 < base ∧ 0 ≤ roommates.getD 0 ∧ roommates.getD 0 ≤ 10 ∧
      0 ≤ contrib.getD 0 ∧ contrib.getD 0 ≤ 1 ∧ 0 ≤ ins.getD 0 ∧ 0 ≤ util.getD 0 then
    .ok { base_monthly_rent := base, roommates := roommates.getD 0,
          roommate_contribution_percent := contrib.getD 0,
          renters_insurance_monthly := ins.getD 0, utilities_monthly := util.getD 0,
          rent_growth := rg.getD (.value { annual := 1/20 }),
          insurance_growth := ig.getD (.value { annual := 3/100 }),
          utilities_growth := ug.getD (.value { annual := 1/40 }) }
  else .error "validation error"

/-! ## Concrete inputs used by the witnesses -/

/-- Evaluation date used by the concrete witnesses. -/
def wToday : Date := ⟨2026, 10, 12⟩

/-- Age-mode inputs for the C1 witness: start age 30y5m given, current age
26, end age left to the retirement preset. -/
def wAgeInputs : GlobalInputs :=
  { timeline_mode := .age, birth_date := some ⟨2000, 1, 1⟩, current_age := some 26,
    start_age_years := some 30, start_age_months := some 5 }

/-- The validated result of `wAgeInputs` at `wToday`. -/
def wAgeOut : GlobalInputs :=
  { wAgeInputs with start_date := some ⟨2031, 3, 12⟩, end_date := some ⟨2067, 10, 12⟩ }

/-- Age-mode inputs for the C2 witness: fractional current age 26.7, so the
month remainder `0.3 * 12 = 3.6` exercises truncation (3 months, where
rounding would give 4). -/
def wFracInputs : GlobalInputs :=
  { timeline_mode := .age, birth_date := some ⟨2000, 1, 1⟩, current_age := some (267/10),
    start_age_years := some 30 }

/-- The validated result of `wFracInputs` at `wToday`: 3 years and 3 months
ahead for the start, 40 years and 3 months ahead for the end. -/
def wFracOut : GlobalInputs :=
  { wFracInputs with start_date := some ⟨2030, 1, 12⟩, end_date := some ⟨2067, 1, 12⟩ }

/-- Age-mode inputs for the C3 witness: requested start age 20 is below the
current age 26. -/
def wBadInputs : GlobalInputs :=
  { timeline_mode := .age, birth_date := some ⟨2000, 1, 1⟩, current_age := some 26,
    start_age_years := some 20 }

/-- Date-mode inputs for the C4 witness. -/
def wDateInputs : GlobalInputs := dateModeInputs ⟨2026, 1, 1⟩ ⟨2027, 1, 1⟩

/-! ## Inversion lemmas for successful construction -/

theorem construct_ok_inv (today : Date) (g out : GlobalInputs)
    (h : construct today g = .ok out) :
    globalFieldChecks g = true ∧ validateAndCalculateTimeline today g = .ok out := by
  unfold construct at h
  split at h
  · exact ⟨by assumption, h⟩
  · exact Except.noConfusion h

theorem ageBranch_ok_inv (today : Date) (g : GlobalInputs) (ca : ℚ) (out : GlobalInputs)
    (h : ageBranch today g ca = .ok out) :
    actualStartAge g.start_age_years g.start_age_months ca <
      actualEndAge g.end_age_years g.end_age_months g.end_option ∧
    ca ≤ actualStartAge g.start_age_years g.start_age_months ca ∧
    dateLt (ageOffsetDate today (actualStartAge g.start_age_years g.start_age_months ca - ca))
      (ageOffsetDate today (actualEndAge g.end_age_years g.end_age_months g.end_option - ca))
      = true ∧
    out = { g with
      start_date :=
        some (ageOffsetDate today (actualStartAge g.start_age_years g.start_age_months ca - ca)),
      end_date :=
        some (ageOffsetDate today
          (actualEndAge g.end_age_years g.end_age_months g.end_option - ca)) } := by
  unfold ageBranch at h
  split_ifs at h with h1 h2 h3
  · exact ⟨not_le.mp h1, not_lt.mp h2, h3, (Except.ok.inj h).symm⟩

theorem construct_age_ok_inv (today : Date) (g out : GlobalInputs)
    (hmode : g.timeline_mode = TimelineMode.age)
    (hok : construct today g = .ok out) :
    ∃ ca, resolvedCurrentAge today g = some ca ∧
      actualStartAge g.start_age_years g.start_age_months ca <
        actualEndAge g.end_age_years g.end_age_months g.end_option ∧
      ca ≤ actualStartAge g.start_age_years g.start_age_months ca ∧
      dateLt (ageOffsetDate today (actualStartAge g.start_age_years g.start_age_months ca - ca))
        (ageOffsetDate today (actualEndAge g.end_age_years g.end_age_months g.end_option - ca))
        = true ∧
      out.start_date =
        some (ageOffsetDate today (actualStartAge g.start_age_years g.start_age_months ca - ca)) ∧
      out.end_date =
        some (ageOffsetDate today
          (actualEndAge g.end_age_years g.end_age_months g.end_option - ca)) := by
  have h := (construct_ok_inv today g out hok).2
  unfold validateAndCalculateTimeline validateTimelineCore at h
  simp only [hmode, if_pos] at h
  cases hb : g.birth_date with
  | none => simp [hb] at h
  | some b =>
    cases hc : resolvedCurrentAge today g with
    | none => simp [hb, hc] at h
    | some ca =>
      simp only [hb, hc] at h
      have hinv := ageBranch_ok_inv today _ ca out h
      refine ⟨ca, rfl, hinv.1, hinv.2.1, hinv.2.2.1, ?_, ?_⟩
      · rw [hinv.2.2.2]
      · rw [hinv.2.2.2]

/-! ## Agreement of the source chains with the spec wording -/

theorem actualStartAge_eq_spec (sy sm : Option Int) (ca : ℚ) :
    actualStartAge sy sm ca = specActualStartAge sy sm ca := by
  cases sy <;> cases sm <;> simp [actualStartAge, specActualStartAge]

theorem actualEndAge_eq_spec (ey em : Option Int) (eo : Option EndOption) :
    actualEndAge ey em eo = specActualEndAge ey em eo := by
  cases ey <;> cases em <;> simp [actualEndAge, specActualEndAge]

/-- On a nonnegative age delta, the source's conversion (truncating `int()`
on the year count and on fractional-years-times-12) agrees with the
floor-the-years, truncate-the-month-remainder reading of the spec. -/
theorem ageOffsetDate_eq_floor_trunc (today : Date) (d : ℚ) (hd : 0 ≤ d) :
    ageOffsetDate today d = relAdd today d.floor (ratTrunc ((d - (d.floor : ℚ)) * 12)) := by
  unfold ageOffsetDate
  rw [show ratTrunc d = d.floor by simp [ratTrunc, hd]]
  rfl

/-! ## Claims C1 - C5 -/

/-- C1: for every age-mode `GlobalInputs` that passes validation at
evaluation date `today` with resolved current age `ca`, the resolved start
and end ages are computed by the spec's fallback chains (years+months, else
years, else `current_age` / the 67.0-or-80.0 end preset), and the resolved
dates are derived from exactly those ages. -/
theorem c1_age_fallback_chain (today : Date) (g out : GlobalInputs) (ca : ℚ)
    (hmode : g.timeline_mode = TimelineMode.age)
    (hca : resolvedCurrentAge today g = some ca)
    (hok : construct today g = .ok out) :
    actualStartAge g.start_age_years g.start_age_months ca
      = specActualStartAge g.start_age_years g.start_age_months ca ∧
    actualEndAge g.end_age_years g.end_age_months g.end_option
      = specActualEndAge g.end_age_years g.end_age_months g.end_option ∧
    out.start_date = some (ageOffsetDate today
      (specActualStartAge g.start_age_years g.start_age_months ca - ca)) ∧
    out.end_date = some (ageOffsetDate today
      (specActualEndAge g.end_age_years g.end_age_months g.end_option - ca)) := by
  obtain ⟨ca', hca', _, _, _, hs, he⟩ := construct_age_ok_inv today g out hmode hok
  rw [hca] at hca'
  cases hca'
  refine ⟨actualStartAge_eq_spec _ _ _, actualEndAge_eq_spec _ _ _, ?_, ?_⟩
  · rw [hs, actualStartAge_eq_spec]
  · rw [he, actualEndAge_eq_spec]

/-- C2: for every validated age-mode `GlobalInputs`, the resolved
`start_date` is today advanced by `floor(actual_start_age - current_age)`
whole years plus the truncation (not rounding) of
`((actual_start_age - current_age) mod 1) * 12` whole months, and
`end_date` is computed the same way from `actual_end_age - current_age`. -/
theorem c2_truncation_not_rounding (today : Date) (g out : GlobalInputs) (ca : ℚ)
    (hmode : g.timeline_mode = TimelineMode.age)
    (hca : resolvedCurrentAge today g = some ca)
    (hok : construct today g = .ok out) :
    out.start_date = some (relAdd today
      (actualStartAge g.start_age_years g.start_age_months ca - ca).floor
      (ratTrunc ((actualStartAge g.start_age_years g.start_age_months ca - ca -
        ((actualStartAge g.start_age_years g.start_age_months ca - ca).floor : ℚ)) * 12))) ∧
    out.end_date = some (relAdd today
      (actualEndAge g.end_age_years g.end_age_months g.end_option - ca).floor
      (ratTrunc ((actualEndAge g.end_age_years g.end_age_months g.end_option - ca -
        ((actualEndAge g.end_age_years g.end_age_months g.end_option - ca).floor : ℚ)) * 12))) := by
  obtain ⟨ca', hca', hlt, hle, _, hs, he⟩ := construct_age_ok_inv today g out hmode hok
  rw [hca] at hca'
  cases hca'
  constructor
  · rw [hs, ageOffsetDate_eq_floor_trunc _ _ (sub_nonneg.mpr hle)]
  · rw [he, ageOffsetDate_eq_floor_trunc _ _ (sub_nonneg.mpr (le_of_lt (lt_of_le_of_lt hle hlt)))]

/-- C3: in age mode with a resolved current age, construction fails
whenever the actual start age is at least the actual end age, and whenever
the actual start age is below the current age, regardless of all other
fields. -/
theorem c3_age_guard_failures (today : Date) (g : GlobalInputs) (ca : ℚ)
    (hmode : g.timeline_mode = TimelineMode.age)
    (hca : resolvedCurrentAge today g = some ca)
    (hbad : actualEndAge g.end_age_years g.end_age_months g.end_option ≤
        actualStartAge g.start_age_years g.start_age_months ca ∨
      actualStartAge g.start_age_years g.start_age_months ca < ca) :
    ∃ msg, construct today g = .error msg := by
  unfold construct
  split
  case isFalse => exact ⟨_, rfl⟩
  case isTrue =>
    unfold validateAndCalculateTimeline validateTimelineCore
    simp only [hmode, if_pos]
    cases hb : g.birth_date with
    | none => simp [hb]
    | some b =>
      simp only [hb, hca]
      unfold ageBranch
      split_ifs with h1 h2 h3
      · exact ⟨_, rfl⟩
      · exact ⟨_, rfl⟩
      all_goals
        rcases hbad with hbad | hbad
        · exact absurd hbad h1
        · exact absurd hbad h2

/-- C4: every successfully constructed `GlobalInputs` (either timeline
mode) carries present start and end dates with the start date strictly
earlier than the end date. -/
theorem c4_dates_present_ordered (today : Date) (g out : GlobalInputs)
    (hok : construct today g = .ok out) :
    ∃ sd ed, out.start_date = some sd ∧ out.end_date = some ed ∧ dateLt sd ed = true := by
  cases hmode : g.timeline_mode with
  | age =>
    obtain ⟨ca, _, _, _, hdl, hs, he⟩ := construct_age_ok_inv today g out hmode hok
    exact ⟨_, _, hs, he, hdl⟩
  | date =>
    have h := (construct_ok_inv today g out hok).2
    unfold validateAndCalculateTimeline validateTimelineCore at h
    rw [if_neg (by simp [hmode])] at h
    cases hsd : g.start_date with
    | none => simp [hsd] at h
    | some sd =>
      cases hed : g.end_date with
      | none => simp [hsd, hed] at h
      | some ed =>
        simp only [hsd, hed] at h
        split_ifs at h with hdl
        refine ⟨sd, ed, ?_, ?_, hdl⟩
        · rw [← Except.ok.inj h]
        · rw [← Except.ok.inj h]

/-- C5: in date mode, construction from two supplied calendar dates
succeeds exactly when the start date is strictly before the end date, and
construction fails whenever either date is absent. -/
theorem c5_date_mode (today d1 d2 : Date) (_h1 : d1.Valid) (_h2 : d2.Valid) :
    ((∃ out, construct today (dateModeInputs d1 d2) = .ok out) ↔ dateLt d1 d2 = true) ∧
    (∀ g : GlobalInputs, g.timeline_mode = TimelineMode.date →
      (g.start_date = none ∨ g.end_date = none) →
      ∃ msg, construct today g = .error msg) := by
  constructor
  · constructor
    · rintro ⟨out, hok⟩
      have h := (construct_ok_inv today _ out hok).2
      unfold validateAndCalculateTimeline validateTimelineCore at h
      rw [if_neg (by simp [dateModeInputs])] at h
      simp only [dateModeInputs] at h
      split_ifs at h with hdl
      exact hdl
    · intro hdl
      refine ⟨{ dateModeInputs d1 d2 with
        current_age := resolvedCurrentAge today (dateModeInputs d1 d2) }, ?_⟩
      unfold construct
      rw [if_pos (show globalFieldChecks (dateModeInputs d1 d2) = true from rfl)]
      unfold validateAndCalculateTimeline validateTimelineCore
      rw [if_neg (by simp [dateModeInputs])]
      simp only [dateModeInputs]
      rw [if_pos hdl]
  · intro g hmode habs
    unfold construct
    split
    case isFalse => exact ⟨_, rfl⟩
    case isTrue =>
      unfold validateAndCalculateTimeline validateTimelineCore
      rw [if_neg (by simp [hmode])]
      rcases habs with hn | hn
      · simp only [hn]
        cases he : g.end_date <;> exact ⟨_, rfl⟩
      · simp only [hn]
        cases hs : g.start_date <;> exact ⟨_, rfl⟩

/-! ## Witnesses for C1 - C5 -/

theorem c1_witness :
    wAgeInputs.timeline_mode = TimelineMode.age ∧
    resolvedCurrentAge wToday wAgeInputs = some 26 ∧
    construct wToday wAgeInputs = .ok wAgeOut ∧
    wAgeOut.start_date = some (ageOffsetDate wToday
      (specActualStartAge wAgeInputs.start_age_years wAgeInputs.start_age_months 26 - 26)) :=
  ⟨rfl, by decide, by decide,
    (c1_age_fallback_chain wToday wAgeInputs wAgeOut 26 rfl (by decide) (by decide)).2.2.1⟩

theorem c2_witness :
    wFracInputs.timeline_mode = TimelineMode.age ∧
    resolvedCurrentAge wToday wFracInputs = some (267/10) ∧
    construct wToday wFracInputs = .ok wFracOut ∧
    wFracOut.start_date = some (relAdd wToday
      (actualStartAge wFracInputs.start_age_years wFracInputs.start_age_months (267/10)
        - 267/10).floor
      (ratTrunc ((actualStartAge wFracInputs.start_age_years wFracInputs.start_age_months (267/10)
        - 267/10 -
        ((actualStartAge wFracInputs.start_age_years wFracInputs.start_age_months (267/10)
          - 267/10).floor : ℚ)) * 12))) ∧
    wFracOut.start_date = some ⟨2030, 1, 12⟩ :=
  ⟨rfl, by decide, by decide,
    (c2_truncation_not_rounding wToday wFracInputs wFracOut (267/10) rfl (by decide)
      (by decide)).1,
    by decide⟩

theorem c3_witness :
    wBadInputs.timeline_mode = TimelineMode.age ∧
    resolvedCurrentAge wToday wBadInputs = some 26 ∧
    actualStartAge wBadInputs.start_age_years wBadInputs.start_age_months 26 < 26 ∧
    (∃ msg, construct wToday wBadInputs = .error msg) :=
  ⟨rfl, by decide, by decide,
    c3_age_guard_failures wToday wBadInputs 26 rfl (by decide) (Or.inr (by decide))⟩

theorem c4_witness :
    construct wToday wDateInputs = .ok wDateInputs ∧
    ∃ sd ed, wDateInputs.start_date = some sd ∧ wDateInputs.end_date = some ed ∧
      dateLt sd ed = true :=
  ⟨by decide, c4_dates_present_ordered wToday wDateInputs wDateInputs (by decide)⟩

theorem c5_witness :
    Date.Valid ⟨2026, 1, 1⟩ ∧ Date.Valid ⟨2027, 1, 1⟩ ∧
    (∃ out, construct wToday (dateModeInputs ⟨2026, 1, 1⟩ ⟨2027, 1, 1⟩) = .ok out) ∧
    (∃ msg, construct wToday
      { timeline_mode := TimelineMode.date, start_date := some ⟨2026, 1, 1⟩ } = .error msg) :=
  ⟨by decide, by decide,
    ((c5_date_mode wToday ⟨2026, 1, 1⟩ ⟨2027, 1, 1⟩ (by decide) (by decide)).1).mpr (by decide),
    (c5_date_mode wToday ⟨2026, 1, 1⟩ ⟨2027, 1, 1⟩ (by decide) (by decide)).2
      { timeline_mode := TimelineMode.date, start_date := some ⟨2026, 1, 1⟩ } rfl (Or.inr rfl)⟩

/-! ## Claims C6 - C7 -/

/-- C6: `RateValue{annual = a}` construction succeeds exactly when `a` is
in `[-1.0, 2.0]`, and every successfully constructed value round-trips
through serialization and deserialization to an equal value with the tag
preserved as `"value"`. -/
theorem c6_rate_value_range_roundtrip (a : ℚ) :
    ((∃ v, mkRateValue a = .ok v) ↔ (-1 ≤ a ∧ a ≤ 2)) ∧
    (∀ v, mkRateValue a = .ok v →
      parseRateSpec (dumpRateSpec (.value v)) = .ok (.value v) ∧
      jget "kind" (dumpRateSpec (.value v)) = some (.str "value")) := by
  constructor
  · constructor
    · rintro ⟨v, hv⟩
      unfold mkRateValue at hv
      split_ifs at hv with h
      exact h
    · intro h
      exact ⟨_, by unfold mkRateValue; rw [if_pos h]⟩
  · intro v hv
    unfold mkRateValue at hv
    split_ifs at hv with h
    cases hv
    refine ⟨?_, rfl⟩
    show (if -1 ≤ a ∧ a ≤ 2 then
        (.ok (.value { annual := a }) : Except String RateSpec)
      else .error "annual must be between -1.0 and 2.0") = .ok (.value { annual := a })
    rw [if_pos h]

theorem c6_witness :
    (-1 ≤ (1/20 : ℚ) ∧ (1/20 : ℚ) ≤ 2) ∧
    (∃ v, mkRateValue (1/20) = .ok v) ∧
    parseRateSpec (dumpRateSpec (.value { annual := 1/20 })) = .ok (.value { annual := 1/20 }) :=
  ⟨by decide, (c6_rate_value_range_roundtrip (1/20)).1.mpr (by decide),
    ((c6_rate_value_range_roundtrip (1/20)).2 { annual := 1/20 } (by decide)).1⟩

/-- C7 (counterexample): constructing a provider-shaped `RateSpec` with an
empty `source` string succeeds (both by direct construction and through
the discriminated-union parser), contradicting the claim that it fails
with a ValidationError. -/
theorem c7_counterexample :
    mkRateProvider "" [] = .ok { source := "", param := [] } ∧
    parseRateSpec [("kind", .str "provider"), ("source", .str "")] =
      .ok (.provider { source := "", param := [] }) :=
  ⟨rfl, rfl⟩

/-- C7 (amended): the source performs no non-emptiness check on the
provider's `source` field (the code accepts any string as a placeholder
until an external provider exists), so provider construction succeeds for
every source string, the empty string included. -/
theorem c7_provider_accepts_any_source (s : String) (param : List (String × JPrim)) :
    mkRateProvider s param = .ok { source := s, param := param } ∧
    parseRateSpec [("kind", .str "provider"), ("source", .str s)] =
      .ok (.provider { source := s, param := [] }) :=
  ⟨rfl, rfl⟩

/-! ## Claims C8 - C10 -/

/-- C8: given the field-level range checks hold, each metric group fails
construction exactly when its paying mode is selected and the companion
payment is absent or not strictly positive; in every non-paying mode
construction succeeds even with the companion absent. -/
theorem c8_conditional_companions :
    (∀ m : HousingMetrics, housingFieldChecks m = true →
      ((∃ msg, mkHousingMetrics m = .error msg) ↔
        ((m.housing_kind = HousingKind.rent ∨ m.housing_kind = HousingKind.mortgage) ∧
          (m.housing_payment_monthly = none ∨
            ∃ p, m.housing_payment_monthly = some p ∧ p ≤ 0)))) ∧
    (∀ m : HealthInsuranceMetrics, healthFieldChecks m = true →
      ((∃ msg, mkHealthInsuranceMetrics m = .error msg) ↔
        (m.payer = HealthPayer.self_pay ∧
          (m.health_premium_monthly = none ∨
            ∃ p, m.health_premium_monthly = some p ∧ p ≤ 0)))) ∧
    (∀ m : CarMetrics, carFieldChecks m = true →
      ((∃ msg, mkCarMetrics m = .error msg) ↔
        (m.status = CarStatus.monthly_payment ∧
          (m.monthly_car_payment = none ∨
            ∃ p, m.monthly_car_payment = some p ∧ p ≤ 0)))) := by
  refine ⟨?_, ?_, ?_⟩
  · intro m hf
    unfold mkHousingMetrics
    rw [if_pos hf]
    unfold check_housing_payment
    cases hk : m.housing_kind <;> cases hp : m.housing_payment_monthly <;>
      simp only [hk, hp] <;> (try simp) <;>
      (try (split_ifs with hple <;> simp [hple]))
  · intro m hf
    unfold mkHealthInsuranceMetrics
    rw [if_pos hf]
    unfold check_health_payment
    cases hk : m.payer <;> cases hp : m.health_premium_monthly <;>
      simp only [hk, hp] <;> (try simp) <;>
      (try (split_ifs with hple <;> simp [hple]))
  · intro m hf
    unfold mkCarMetrics
    rw [if_pos hf]
    unfold check_car_payment
    cases hk : m.status <;> cases hp : m.monthly_car_payment <;>
      simp only [hk, hp] <;> (try simp) <;>
      (try (split_ifs with hple <;> simp [hple]))

theorem c8_witness :
    housingFieldChecks { housing_kind := HousingKind.rent } = true ∧
    (∃ msg, mkHousingMetrics { housing_kind := HousingKind.rent } = .error msg) ∧
    healthFieldChecks
      { payer := HealthPayer.self_pay, health_premium_monthly := some 0 } = true ∧
    (∃ msg, mkHealthInsuranceMetrics
      { payer := HealthPayer.self_pay, health_premium_monthly := some 0 } = .error msg) ∧
    carFieldChecks { status := CarStatus.paid_off } = true ∧
    ¬(∃ msg, mkCarMetrics { status := CarStatus.paid_off } = .error msg) :=
  ⟨by decide,
    (c8_conditional_companions.1 _ (by decide)).mpr ⟨Or.inl rfl, Or.inl rfl⟩,
    by decide,
    (c8_conditional_companions.2.1 _ (by decide)).mpr ⟨rfl, Or.inr ⟨0, rfl, le_refl 0⟩⟩,
    by decide,
    fun hx =>
      absurd ((c8_conditional_companions.2.2 _ (by decide)).mp hx).1 (by decide)⟩

/-- C9: with every other field left to default, `RentInputs` construction
succeeds exactly when the base rent is strictly positive, and on success
the declared defaults hold: no roommates, zero contribution share, and
fixed-value growth rates of 5%, 3% and 2.5%. -/
theorem c9_rent_inputs_defaults (r : ℚ) :
    ((∃ out, mkRentInputs r none none none none none none none = .ok out) ↔ 0 < r) ∧
    ∀ out, mkRentInputs r none none none none none none none = .ok out →
      out.roommates = 0 ∧ out.roommate_contribution_percent = 0 ∧
      out.rent_growth = .value { annual := 1/20 } ∧
      out.insurance_growth = .value { annual := 3/100 } ∧
      out.utilities_growth = .value { annual := 1/40 } := by
  constructor
  · constructor
    · rintro ⟨out, h⟩
      unfold mkRentInputs at h
      split_ifs at h with hc
      exact hc.1
    · intro h
      refine ⟨{ base_monthly_rent := r }, ?_⟩
      unfold mkRentInputs
      rw [if_pos ⟨h, by decide, by decide, by decide, by decide, by decide, by decide⟩]
      rfl
  · intro out h
    unfold mkRentInputs at h
    split_ifs at h with hc
    cases h
    exact ⟨rfl, rfl, rfl, rfl, rfl⟩

theorem c9_witness :
    (0 : ℚ) < 2000 ∧
    (∃ out, mkRentInputs 2000 none none none none none none none = .ok out) ∧
    ¬(∃ out, mkRentInputs 0 none none none none none none none = .ok out) ∧
    ¬(∃ out, mkRentInputs (-100) none none none none none none none = .ok out) :=
  ⟨by decide, (c9_rent_inputs_defaults 2000).1.mpr (by decide),
    fun hx => absurd ((c9_rent_inputs_defaults 0).1.mp hx) (by decide),
    fun hx => absurd ((c9_rent_inputs_defaults (-100)).1.mp hx) (by decide)⟩

/-- C10: a default-constructed `HousingMetrics` does not exist: the
declared default kind is rent, which demands a positive payment, while the
payment defaults to absent, so construction from all defaults fails. -/
theorem c10_default_housing_metrics_fails :
    ({} : HousingMetrics).housing_kind = HousingKind.rent ∧
    ({} : HousingMetrics).housing_payment_monthly = none ∧
    ∃ msg, mkHousingMetrics {} = .error msg :=
  ⟨rfl, rfl, ⟨_, rfl⟩⟩

/-! ## Sanity checks of the date arithmetic on concrete values -/

example : dateLt ⟨2020, 1, 31⟩ ⟨2020, 2, 1⟩ = true := by decide

example : addMonths ⟨2020, 1, 31⟩ 1 = ⟨2020, 2, 29⟩ := by decide

example : addMonths ⟨2026, 10, 12⟩ 48 = ⟨2030, 10, 12⟩ := by decide

example : monthsBetween ⟨2020, 2, 1⟩ ⟨2020, 1, 31⟩ = 0 := by decide

example : monthsBetween ⟨2026, 10, 12⟩ ⟨2000, 1, 1⟩ = 321 := by decide

example : ratTrunc (33/10 * 12 - 3 * 12) = 3 := by decide

example : ((33 : ℚ)/10).floor = 3 := by decide

example (q : ℚ) : q.floor = ⌊q⌋ := by rw [Rat.floor_def', Rat.floor_def]

example : fracPart (33/10 : ℚ) = 3/10 := by decide

example : derivedCurrentAge ⟨2026, 10, 12⟩ ⟨2000, 1, 1⟩ = 26 + 9/12 := by decide

example :
    construct ⟨2026, 10, 12⟩
      { timeline_mode := .age, birth_date := some ⟨2000, 1, 1⟩,
        current_age := some 26, start_age_years := some 30 } =
    .ok
      { timeline_mode := .age, birth_date := some ⟨2000, 1, 1⟩,
        current_age := some 26, start_age_years := some 30,
        start_date := some ⟨2030, 10, 12⟩, end_date := some ⟨2067, 10, 12⟩ } := by
  decide

example :
    construct ⟨2026, 10, 12⟩
      { timeline_mode := .age, birth_date := some ⟨2000, 1, 1⟩,
        current_age := some 26, start_age_years := some 20 } =
    .error "The starting age cannot be less than your current age." := by
  decide

end LifeMarket
